import Mathlib

/-!
Shallow embedding of aws-lambda-autoscale-provisioned-concurrency-example.

The repository has one piece of executable logic, the simulated-workload
Lambda handler (src/test-function.ts), plus two CDK constructs whose
constructors compute plain configuration values (ExampleLambda and
AutoscaleProvisionedConcurrentLambda).  The handler is embedded as a pure
state-passing function over an explicit process state; the awaited timer
promises (which never reject) are modelled in an error monad so that the
absence of a failure path is a provable statement, and each suspension is
recorded as an event in a trace.  JavaScript numbers are modelled as Int
(all values in play are integral), parseInt as a Lean function returning
Option Int with none standing for NaN, and the JavaScript truthiness
operator || by explicit helpers (empty string and 0 are falsy).
-/

/-- The process environment as seen by the handler: the two variables it
reads, each possibly absent. -/
structure Env where
  WORKING_TIME_MILLIS : Option String
  COLD_START_TIME_MILLIS : Option String
deriving DecidableEq, Repr

/-- JavaScript `s || d` for an optional string: undefined and the empty
string are falsy. -/
def jsOrString (v : Option String) (d : String) : String :=
  match v with
  | none => d
  | some s => if s = "" then d else s

/-- Decimal digits read from the front of a character list; none when no
leading digit exists (the NaN case of parseInt). -/
def parseDigits (cs : List Char) : Option Nat :=
  let ds := cs.takeWhile Char.isDigit
  if ds.isEmpty then none
  else some (ds.foldl (fun acc c => 10 * acc + (c.toNat - 48)) 0)

/-- JavaScript parseInt with no radix argument on a decimal string: skip
leading whitespace, an optional sign, then read leading digits; NaN
(modelled as none) when no digits follow. -/
def parseInt (s : String) : Option Int :=
  let cs := s.data.dropWhile Char.isWhitespace
  match cs with
  | '-' :: rest => (parseDigits rest).map (fun n => -(n : Int))
  | '+' :: rest => (parseDigits rest).map (fun n => (n : Int))
  | _ => (parseDigits cs).map (fun n => (n : Int))

/-- Module-level constant of the handler:
workTime = parseInt(process.env.WORKING_TIME_MILLIS || '20'). -/
def workTime (env : Env) : Option Int :=
  parseInt (jsOrString env.WORKING_TIME_MILLIS "20")

/-- Module-level constant of the handler:
coldStartTime = parseInt(process.env.COLD_START_TIME_MILLIS || '200'). -/
def coldStartTime (env : Env) : Option Int :=
  parseInt (jsOrString env.COLD_START_TIME_MILLIS "200")

/-- Process-wide mutable state of the handler module: the coldStart flag. -/
structure ProcState where
  coldStart : Bool
deriving DecidableEq, Repr

/-- The state a fresh process instance starts in: coldStart = true. -/
def initialState : ProcState := ⟨true⟩

/-- Observable suspensions of the handler, tagged with the setTimeout
duration (none = NaN). -/
inductive Event where
  | initDelay (ms : Option Int)
  | workDelay (ms : Option Int)
deriving DecidableEq, Repr

/-- The handler's HTTP result type (the two fields the code sets). -/
structure APIGatewayProxyResult where
  statusCode : Int
  body : String
deriving DecidableEq, Repr

/-- Awaiting the promise new Promise(resolve => setTimeout(resolve, ms)):
setTimeout never rejects, so the await always succeeds. -/
def sleepPromise (ms : Option Int) : Except String Unit :=
  Except.ok ()

/-- Outcome of one successful invocation: the updated module state, the
returned value, and the trace of suspensions in order. -/
structure HandleResult where
  newState : ProcState
  response : APIGatewayProxyResult
  events : List Event
deriving DecidableEq, Repr

/-- async function init(): awaits a coldStartTime-millisecond timer, then
returns false. -/
def init (env : Env) : Except String (Bool × List Event) :=
  match sleepPromise (coldStartTime env) with
  | Except.error e => Except.error e
  | Except.ok _ => Except.ok (false, [Event.initDelay (coldStartTime env)])

/-- The exported handler: if coldStart then coldStart = await init();
then await a workTime-millisecond timer; return statusCode 200, body OK.
A rejected await would propagate as Except.error. -/
def handler (env : Env) (s : ProcState) : Except String HandleResult :=
  match (if s.coldStart then init env else Except.ok (s.coldStart, [])) with
  | Except.error e => Except.error e
  | Except.ok (cs, ev) =>
    match sleepPromise (workTime env) with
    | Except.error e => Except.error e
    | Except.ok _ =>
      Except.ok ⟨⟨cs⟩, ⟨200, "OK"⟩, ev ++ [Event.workDelay (workTime env)]⟩

/-- The state the next invocation sees (unchanged on the unreachable
error branch). -/
def nextState (env : Env) (s : ProcState) : ProcState :=
  match handler env s with
  | Except.ok r => r.newState
  | Except.error _ => s

/-- The suspension trace of one invocation (empty on the unreachable
error branch). -/
def handlerEvents (env : Env) (s : ProcState) : List Event :=
  match handler env s with
  | Except.ok r => r.events
  | Except.error _ => []

/-- Module state after n invocations in one process instance. -/
def stateAfter (env : Env) : Nat → ProcState
  | 0 => initialState
  | n + 1 => nextState env (stateAfter env n)

theorem handler_cold (env : Env) :
    handler env ⟨true⟩ =
      Except.ok ⟨⟨false⟩, ⟨200, "OK"⟩,
        [Event.initDelay (coldStartTime env), Event.workDelay (workTime env)]⟩ := rfl

theorem handler_warm (env : Env) :
    handler env ⟨false⟩ =
      Except.ok ⟨⟨false⟩, ⟨200, "OK"⟩, [Event.workDelay (workTime env)]⟩ := rfl

theorem handler_any (env : Env) (s : ProcState) :
    handler env s =
      Except.ok ⟨⟨false⟩, ⟨200, "OK"⟩,
        (if s.coldStart then [Event.initDelay (coldStartTime env)] else []) ++
          [Event.workDelay (workTime env)]⟩ := by
  cases s with
  | mk cs => cases cs <;> rfl

theorem nextState_eq (env : Env) (s : ProcState) : nextState env s = ⟨false⟩ := by
  unfold nextState
  rw [handler_any]

theorem stateAfter_pos (env : Env) (n : Nat) (h : 1 ≤ n) :
    (stateAfter env n).coldStart = false := by
  cases n with
  | zero => exact absurd h (by decide)
  | succ m => simp [stateAfter, nextState_eq]

theorem handlerEvents_eq (env : Env) (s : ProcState) :
    handlerEvents env s =
      (if s.coldStart then [Event.initDelay (coldStartTime env)] else []) ++
        [Event.workDelay (workTime env)] := by
  unfold handlerEvents
  rw [handler_any]

/-- Props of the ExampleLambda construct: the two optional durations. -/
structure ExampleLambdaProps where
  workingTimeInMS : Option Int
  coldStartTimeInMS : Option Int
deriving DecidableEq, Repr

/-- JavaScript `v || d` on an optional number: undefined and 0 are falsy. -/
def jsOrNumber (v : Option Int) (d : Int) : Int :=
  match v with
  | none => d
  | some x => if x = 0 then d else x

/-- Environment block the ExampleLambda constructor passes to its
NodejsFunction: workingTimeInMS || 10 and coldStartTimeInMS || 500, each
stringified. -/
def exampleLambda (props : ExampleLambdaProps) : Env :=
  ⟨some (toString (jsOrNumber props.workingTimeInMS 10)),
   some (toString (jsOrNumber props.coldStartTimeInMS 500))⟩

/-- Possible metrics tracked by Application Auto Scaling for Lambda. -/
inductive MetricType where
  | Standard
  | Maximum
deriving DecidableEq, Repr

/-- Props of the AutoscaleProvisionedConcurrentLambda construct (the
handler IVersion reference is an external cloud resource and carries no
data the constructor computes with, so it is omitted). -/
structure AutoscaleProvisionedConcurrentLambdaProps where
  initialCapacity : Option Int
  minCapacity : Option Int
  maxCapacity : Option Int
  metricType : Option MetricType
  targetValue : Option Rat
deriving DecidableEq, Repr

/-- The single metric-tracking policy the constructor binds on the
scalable target: the predefined average-utilization metric, or the custom
alias metric with statistic max; each carries its target value. -/
inductive TrackingPolicy where
  | predefinedAverage (targetValue : Rat)
  | customMaximum (targetValue : Rat)
deriving DecidableEq, Repr

/-- Target value carried by a tracking policy. -/
def TrackingPolicy.target : TrackingPolicy → Rat
  | TrackingPolicy.predefinedAverage t => t
  | TrackingPolicy.customMaximum t => t

/-- JavaScript `v || d` on an optional non-integral number (targetValue):
undefined and 0 are falsy. -/
def jsOrRat (v : Option Rat) (d : Rat) : Rat :=
  match v with
  | none => d
  | some x => if x = 0 then d else x

/-- Configuration the AutoscaleProvisionedConcurrentLambda constructor
computes and binds on the cloud resources it declares. -/
structure AutoscaleConfig where
  minCapacity : Int
  maxCapacity : Int
  provisionedConcurrentExecutions : Int
  policy : TrackingPolicy
deriving DecidableEq, Repr

/-- The AutoscaleProvisionedConcurrentLambda constructor: defaults
minCapacity ?? 1, maxCapacity ?? 50, initialCapacity =
max(props.initialCapacity ?? 1, minCapacity), metricType ||
MetricType.Standard (Standard is the 0 enum member, so || yields Standard
either way), targetValue || 0.8; the alias gets
provisionedConcurrentExecutions = initialCapacity and the switch on
metricType installs exactly one tracking policy. -/
def autoscaleProvisionedConcurrentLambda
    (props : AutoscaleProvisionedConcurrentLambdaProps) : AutoscaleConfig :=
  let minCapacity := props.minCapacity.getD 1
  let maxCapacity := props.maxCapacity.getD 50
  let initialCapacity := max (props.initialCapacity.getD 1) minCapacity
  let metricType :=
    match props.metricType with
    | some MetricType.Maximum => MetricType.Maximum
    | _ => MetricType.Standard
  let targetValue := jsOrRat props.targetValue (4 / 5)
  ⟨minCapacity, maxCapacity, initialCapacity,
    match metricType with
    | MetricType.Standard => TrackingPolicy.predefinedAverage targetValue
    | MetricType.Maximum => TrackingPolicy.customMaximum targetValue⟩

/-- Claim C1: the process-wide cold-start flag starts true, is set to false
during the first invocation (whose trace performs the initialization
delay), and for every later invocation it remains false and the
initialization delay is never performed again. -/
theorem C1_cold_start_flag (env : Env) (n : Nat) (h : 1 ≤ n) :
    initialState.coldStart = true ∧
    (stateAfter env 1).coldStart = false ∧
    Event.initDelay (coldStartTime env) ∈ handlerEvents env initialState ∧
    (stateAfter env n).coldStart = false ∧
    (∀ ms, Event.initDelay ms ∉ handlerEvents env (stateAfter env n)) := by
  refine ⟨rfl, ?_, ?_, stateAfter_pos env n h, ?_⟩
  · simp [stateAfter, nextState_eq]
  · rw [handlerEvents_eq]
    simp [initialState]
  · intro ms hmem
    rw [handlerEvents_eq, stateAfter_pos env n h] at hmem
    simp at hmem

/-- Witness for C1 at the empty environment and n = 1. -/
theorem C1_cold_start_flag_witness :
    1 ≤ 1 ∧
    (initialState.coldStart = true ∧
     (stateAfter ⟨none, none⟩ 1).coldStart = false ∧
     Event.initDelay (coldStartTime ⟨none, none⟩) ∈
       handlerEvents ⟨none, none⟩ initialState ∧
     (stateAfter ⟨none, none⟩ 1).coldStart = false ∧
     (∀ ms, Event.initDelay ms ∉ handlerEvents ⟨none, none⟩ (stateAfter ⟨none, none⟩ 1))) :=
  ⟨by decide, C1_cold_start_flag ⟨none, none⟩ 1 (by decide)⟩

/-- Claim C2: every invocation, whatever the configured delays and however
many invocations preceded it, returns exactly statusCode 200 and body OK. -/
theorem C2_response_always_ok (env : Env) (s : ProcState) :
    ∃ r, handler env s = Except.ok r ∧ r.response = ⟨200, "OK"⟩ :=
  ⟨_, handler_any env s, rfl⟩

/-- Claim C6: the handler has no failure branch: it never evaluates to an
error, and always to the success result with statusCode 200 and body OK. -/
theorem C6_no_failure_path (env : Env) (s : ProcState) :
    (∀ e, handler env s ≠ Except.error e) ∧
    ∃ r, handler env s = Except.ok r ∧
      r.response.statusCode = 200 ∧ r.response.body = "OK" := by
  refine ⟨?_, ⟨_, handler_any env s, rfl, rfl⟩⟩
  intro e hcontra
  rw [handler_any] at hcontra
  exact Except.noConfusion hcontra

/-- Counterexample to claim C3: with the non-numeric value abc in
WORKING_TIME_MILLIS, parseInt yields NaN (none), not the default 20, so
the configured duration does not equal the documented default. -/
theorem C3_counterexample :
    workTime ⟨some "abc", none⟩ = none ∧ ¬ workTime ⟨some "abc", none⟩ = some 20 := by
  decide

/-- Claim C3 (amended): when WORKING_TIME_MILLIS and COLD_START_TIME_MILLIS
are missing or empty, the configured durations equal the documented
defaults of 20 and 200; a non-empty non-numeric value instead produces NaN
(the falsy fallback only handles undefined and the empty string). -/
theorem C3_missing_env_defaults (env : Env)
    (hw : env.WORKING_TIME_MILLIS = none ∨ env.WORKING_TIME_MILLIS = some "")
    (hc : env.COLD_START_TIME_MILLIS = none ∨ env.COLD_START_TIME_MILLIS = some "") :
    workTime env = some 20 ∧ coldStartTime env = some 200 := by
  unfold workTime coldStartTime jsOrString
  rcases hw with hw | hw <;> rcases hc with hc | hc <;> rw [hw, hc] <;> decide

/-- Witness for the amended C3 at the empty environment. -/
theorem C3_missing_env_defaults_witness :
    ((⟨none, none⟩ : Env).WORKING_TIME_MILLIS = none ∨
      (⟨none, none⟩ : Env).WORKING_TIME_MILLIS = some "") ∧
    ((⟨none, none⟩ : Env).COLD_START_TIME_MILLIS = none ∨
      (⟨none, none⟩ : Env).COLD_START_TIME_MILLIS = some "") ∧
    (workTime ⟨none, none⟩ = some 20 ∧ coldStartTime ⟨none, none⟩ = some 200) :=
  ⟨Or.inl rfl, Or.inl rfl,
    C3_missing_env_defaults ⟨none, none⟩ (Or.inl rfl) (Or.inl rfl)⟩

/-- Claim C4: every invocation ends its suspension trace with the
workTime processing delay; in a cold invocation the initialization delay
occupies a strictly earlier position than the processing delay; and no
trace ever places an initialization delay at or after a processing
delay. -/
theorem C4_init_before_work (env : Env) (s : ProcState) :
    (handlerEvents env s)[(handlerEvents env s).length - 1]? =
        some (Event.workDelay (workTime env)) ∧
    (s.coldStart = true →
      ∃ i j : Nat, i < j ∧
        (handlerEvents env s)[i]? = some (Event.initDelay (coldStartTime env)) ∧
        (handlerEvents env s)[j]? = some (Event.workDelay (workTime env))) ∧
    (∀ (i j : Nat) (mi mj : Option Int),
      (handlerEvents env s)[i]? = some (Event.workDelay mi) →
      (handlerEvents env s)[j]? = some (Event.initDelay mj) → j < i) := by
  cases s with
  | mk cs =>
    cases cs
    · rw [handlerEvents_eq]
      simp only [ProcState.coldStart, if_neg Bool.false_ne_true, List.nil_append]
      refine ⟨rfl, ?_, ?_⟩
      · intro hcontra
        exact absurd hcontra (by simp)
      · intro i j mi mj hi hj
        cases j with
        | zero => simp at hj
        | succ j1 => simp at hj
    · rw [handlerEvents_eq]
      simp only [ProcState.coldStart, if_pos rfl, List.cons_append, List.nil_append]
      refine ⟨rfl, fun _ => ⟨0, 1, by decide, rfl, rfl⟩, ?_⟩
      intro i j mi mj hi hj
      cases i with
      | zero => simp at hi
      | succ i1 =>
        cases i1 with
        | zero =>
          cases j with
          | zero => decide
          | succ j1 =>
            cases j1 with
            | zero => simp at hj
            | succ j2 => simp at hj
        | succ i2 => simp at hi

/-- Claim C5: with WORKING_TIME_MILLIS=0 and COLD_START_TIME_MILLIS=0 both
configured durations are zero, every suspension in any invocation is a
0-millisecond timer, and the handler still returns 200 OK. -/
theorem C5_zero_delays :
    workTime ⟨some "0", some "0"⟩ = some 0 ∧
    coldStartTime ⟨some "0", some "0"⟩ = some 0 ∧
    ∀ s, ∃ r, handler ⟨some "0", some "0"⟩ s = Except.ok r ∧
      r.response = ⟨200, "OK"⟩ ∧
      (∀ ms, Event.workDelay ms ∈ r.events → ms = some 0) ∧
      (∀ ms, Event.initDelay ms ∈ r.events → ms = some 0) := by
  have hw : workTime ⟨some "0", some "0"⟩ = some 0 := by decide
  have hc : coldStartTime ⟨some "0", some "0"⟩ = some 0 := by decide
  refine ⟨hw, hc, fun s => ⟨_, handler_any _ s, rfl, ?_, ?_⟩⟩
  · intro ms hmem
    rw [hw, hc] at hmem
    cases s with
    | mk cs => cases cs <;> simpa using hmem
  · intro ms hmem
    rw [hw, hc] at hmem
    cases s with
    | mk cs => cases cs <;> simpa using hmem

/-- Claim C7: the handler defaults WORKING_TIME_MILLIS to 20 and
COLD_START_TIME_MILLIS to 200 when the variables are absent, while the
ExampleLambda construct with omitted props sets the environment to 10 for
working time and 500 for cold-start time. -/
theorem C7_two_default_profiles :
    workTime ⟨none, none⟩ = some 20 ∧
    coldStartTime ⟨none, none⟩ = some 200 ∧
    exampleLambda ⟨none, none⟩ = ⟨some "10", some "500"⟩ := by
  decide

/-- Claim C8: whatever the props, exactly one tracking policy is bound:
the predefined average-utilization metric when metricType is omitted or
Standard, and the custom maximum-statistic metric when it is Maximum; the
target value defaults to 0.8 when not provided, and the scalable target's
capacity bounds default to minimum 1 and maximum 50. -/
theorem C8_tracking_policy (ic mc xc : Option Int) (mt : Option MetricType)
    (tv : Option Rat) :
    (∃ t, (autoscaleProvisionedConcurrentLambda ⟨ic, mc, xc, none, tv⟩).policy =
        TrackingPolicy.predefinedAverage t) ∧
    (∃ t, (autoscaleProvisionedConcurrentLambda
        ⟨ic, mc, xc, some MetricType.Standard, tv⟩).policy =
        TrackingPolicy.predefinedAverage t) ∧
    (∃ t, (autoscaleProvisionedConcurrentLambda
        ⟨ic, mc, xc, some MetricType.Maximum, tv⟩).policy =
        TrackingPolicy.customMaximum t) ∧
    (autoscaleProvisionedConcurrentLambda ⟨ic, mc, xc, mt, none⟩).policy.target = 4 / 5 ∧
    (autoscaleProvisionedConcurrentLambda ⟨ic, none, xc, mt, tv⟩).minCapacity = 1 ∧
    (autoscaleProvisionedConcurrentLambda ⟨ic, mc, none, mt, tv⟩).maxCapacity = 50 := by
  refine ⟨⟨_, rfl⟩, ⟨_, rfl⟩, ⟨_, rfl⟩, ?_, rfl, rfl⟩
  rcases mt with _ | mt
  · rfl
  · cases mt <;> rfl

/-- Claim C9: in the ExampleLambda construct an explicit 0 for either
duration is indistinguishable from omitting it: the environment is set to
the default strings 10 and 500, never to 0. -/
theorem C9_zero_props_indistinguishable (w c : Option Int) :
    exampleLambda ⟨some 0, c⟩ = exampleLambda ⟨none, c⟩ ∧
    exampleLambda ⟨w, some 0⟩ = exampleLambda ⟨w, none⟩ ∧
    exampleLambda ⟨some 0, some 0⟩ = ⟨some "10", some "500"⟩ ∧
    ¬ (exampleLambda ⟨some 0, some 0⟩).WORKING_TIME_MILLIS = some "0" ∧
    ¬ (exampleLambda ⟨some 0, some 0⟩).COLD_START_TIME_MILLIS = some "0" := by
  refine ⟨?_, ?_, by decide, by decide, by decide⟩
  · simp [exampleLambda, jsOrNumber]
  · simp [exampleLambda, jsOrNumber]

/-- Claim C10: the provisioned concurrent executions bound on the alias is
max(initialCapacity with default 1, minCapacity with default 1), hence
never below the autoscaler's configured minimum capacity. -/
theorem C10_initial_capacity_clamped
    (props : AutoscaleProvisionedConcurrentLambdaProps) :
    (autoscaleProvisionedConcurrentLambda props).provisionedConcurrentExecutions =
      max (props.initialCapacity.getD 1) (props.minCapacity.getD 1) ∧
    (autoscaleProvisionedConcurrentLambda props).minCapacity ≤
      (autoscaleProvisionedConcurrentLambda props).provisionedConcurrentExecutions := by
  exact ⟨rfl, le_max_right _ _⟩
